import Mathlib

set_option maxRecDepth 8000

/-!
Verification of the PhishSpector signal-fusion core (background.js, content.js)
against its natural-language specification.  JavaScript numbers on the scoring
paths are modelled as exact rationals, with an explicit NaN constructor where
the code can produce one; machine strings are modelled as lists of characters.
-/

/- ===================== JS number values ===================== -/

/-- JS number on the scoring path: an exact rational value, or NaN. -/
inductive JsNum where
  | num (q : ℚ)
  | nan
deriving DecidableEq

/-- JS `+` on numbers (NaN propagates). -/
def JsNum.add : JsNum → JsNum → JsNum
  | JsNum.num a, JsNum.num b => JsNum.num (a + b)
  | _, _ => JsNum.nan

/-- JS `*` by a constant weight (NaN propagates). -/
def JsNum.mulC : JsNum → ℚ → JsNum
  | JsNum.num a, c => JsNum.num (a * c)
  | JsNum.nan, _ => JsNum.nan

/-- JS Math.round: floor of x + 1/2 on numbers; NaN maps to NaN. -/
def JsNum.roundJ : JsNum → JsNum
  | JsNum.num a => JsNum.num ((round a : ℤ) : ℚ)
  | JsNum.nan => JsNum.nan

/-- JS Math.min(100, x): NaN in, NaN out. -/
def JsNum.min100 : JsNum → JsNum
  | JsNum.num a => JsNum.num (min 100 a)
  | JsNum.nan => JsNum.nan

/-- JS Math.max(0, x): NaN in, NaN out. -/
def JsNum.max0 : JsNum → JsNum
  | JsNum.num a => JsNum.num (max 0 a)
  | JsNum.nan => JsNum.nan

/-- A JS value as it can appear in the parsed ML backend response after the
`json.ml_score || json.score || null` chain: a number, a string, or anything
whose typeof is neither (null, boolean, object). -/
inductive JsVal where
  | vnum (n : JsNum)
  | vstr (s : List Char)
  | vother
deriving DecidableEq

/-- Digit list to natural number. -/
def digitsToNat (l : List Char) : ℕ :=
  l.foldl (fun a c => a * 10 + (c.toNat - 48)) 0

/-- JS parseFloat restricted to plain decimal literals (optional sign, integer
part, optional fraction; no exponent part, which no caller in the repository
produces): NaN when no digit is found. -/
def parseFloatJs (s : List Char) : JsNum :=
  let s1 := s.dropWhile Char.isWhitespace
  let sgn : ℚ := match s1 with
    | '-' :: _ => -1
    | _ => 1
  let s2 := match s1 with
    | '-' :: r => r
    | '+' :: r => r
    | r => r
  let ip := s2.takeWhile Char.isDigit
  let s3 := s2.drop ip.length
  let fp := match s3 with
    | '.' :: r => r.takeWhile Char.isDigit
    | _ => []
  if ip.length = 0 ∧ fp.length = 0 then JsNum.nan
  else JsNum.num (sgn * ((digitsToNat ip : ℚ) + (digitsToNat fp : ℚ) / (10 ^ fp.length : ℚ)))

/- ===================== Ensemble combiner (background.js get_scores) ===================== -/

/-- MAX_SCORE constant of background.js. -/
def MAX_SCORE : ℤ := 100

/-- Lines 385-395 of background.js on actual numbers: header suspicion is
`100 - (headerTrust || 50)` (the JS `||` turns a trust of 0 into 50), then the
weighted sum with WEIGHTS local 0.25 / ml 0.50 / header 0.20 is rounded and
clamped into [0, MAX_SCORE]. -/
def ensembleFinalQ (localScore mlVal : ℚ) (headerTrust : ℤ) : ℤ :=
  let headerSuspicion : ℤ := 100 - (if headerTrust = 0 then 50 else headerTrust)
  max 0 (min MAX_SCORE (round (localScore * 0.25 + mlVal * 0.5 + (headerSuspicion : ℚ) * 0.2)))

/-- Lines 385-395 of background.js on JS values (NaN can flow through). -/
def ensembleFinal (localScore mlVal : JsNum) (headerTrust : ℤ) : JsNum :=
  let headerSuspicion : ℤ := 100 - (if headerTrust = 0 then 50 else headerTrust)
  JsNum.max0 (JsNum.min100 (JsNum.roundJ (JsNum.add
    (JsNum.add (JsNum.mulC localScore 0.25) (JsNum.mulC mlVal 0.5))
    (JsNum.mulC (JsNum.num (headerSuspicion : ℚ)) 0.2))))

/-- Response shape sent by the get_scores handler. -/
structure ScoresResponse where
  ok : Bool
  localScore : ℚ
  ml_score : JsNum
  headerTrust : ℤ
  final_score : JsNum
deriving DecidableEq

/-- The get_scores handler (background.js lines 324-404) given the resolved
local score, the resolved ML response value (`json.ml_score || json.score ||
null`, JsVal.vother standing for null or any non-number non-string), and the
outcome of the header-trust attempt (none when any collaborator failed, so the
neutral 50 initialisation survives).  A string ML score goes through
parseFloat; a value whose typeof is not "number" is replaced by the local
score. -/
def get_scores (localScore : ℚ) (mlRaw : JsVal) (hdr : Option ℤ) : ScoresResponse :=
  let ml1 : JsVal := match mlRaw with
    | JsVal.vstr s => JsVal.vnum (parseFloatJs s)
    | v => v
  let mlVal : JsNum := match ml1 with
    | JsVal.vnum n => n
    | _ => JsNum.num localScore
  let headerTrust : ℤ := hdr.getD 50
  ⟨true, localScore, mlVal, headerTrust, ensembleFinal (JsNum.num localScore) mlVal headerTrust⟩

/-- Modelled from the spec: claim C1's stated combiner, whose header suspicion
is literally `100 - headerTrust` for every trust value. -/
def claimEnsembleFinal (localScore mlVal : ℚ) (headerTrust : ℤ) : ℤ :=
  max 0 (min 100 (round (localScore * 0.25 + mlVal * 0.5 + ((100 - headerTrust : ℤ) : ℚ) * 0.2)))

/- ===================== String scanning primitives ===================== -/

/-- Lower-case a JS string (ASCII, which covers every token the code scans for). -/
def lowerL (s : List Char) : List Char := s.map Char.toLower

/-- needle is a prefix of hay. -/
def isPrefixAt : List Char → List Char → Bool
  | [], _ => true
  | _ :: _, [] => false
  | a :: as, b :: bs => a == b && isPrefixAt as bs

/-- JS String.includes: needle occurs contiguously somewhere in hay. -/
def hasSub (needle : List Char) : List Char → Bool
  | [] => isPrefixAt needle []
  | c :: rest => isPrefixAt needle (c :: rest) || hasSub needle rest

/- ===================== Authentication-Results parser ===================== -/

/-- Per-protocol verdict: the source uses "pass" / "fail" / null. -/
inductive Verdict where
  | pass
  | fail
  | unknown
deriving DecidableEq

/-- AuthVerdict record produced by parseAuthResults. -/
structure AuthVerdict where
  spf : Verdict
  dkim : Verdict
  dmarc : Verdict
  raw : List Char
deriving DecidableEq

/-- background.js parseAuthResults (lines 84-93): lower-case the header, then
substring search for protocol=pass before protocol=fail for each protocol; a
null or non-string input yields all-unknown with empty raw. -/
def parseAuthResults (authHeader : Option (List Char)) : AuthVerdict :=
  match authHeader with
  | none => ⟨Verdict.unknown, Verdict.unknown, Verdict.unknown, []⟩
  | some s =>
    let lower := lowerL s
    ⟨if hasSub ("spf=pass".toList) lower then Verdict.pass
       else if hasSub ("spf=fail".toList) lower then Verdict.fail else Verdict.unknown,
     if hasSub ("dkim=pass".toList) lower then Verdict.pass
       else if hasSub ("dkim=fail".toList) lower then Verdict.fail else Verdict.unknown,
     if hasSub ("dmarc=pass".toList) lower then Verdict.pass
       else if hasSub ("dmarc=fail".toList) lower then Verdict.fail else Verdict.unknown,
     s⟩

/-- background.js headerTrustFromParsed (lines 96-108) with the
HEADER_TRUST_POINTS table inlined: neutral 50, additive per-protocol deltas,
clamp to [0,100]; a missing parsed record stays at the neutral 50. -/
def headerTrustFromParsed (parsed : Option AuthVerdict) : ℤ :=
  match parsed with
  | none => 50
  | some p =>
    let trust : ℤ := 50
    let trust := trust + (if p.spf = Verdict.pass then 40 else 0)
    let trust := trust + (if p.spf = Verdict.fail then -40 else 0)
    let trust := trust + (if p.dkim = Verdict.pass then 40 else 0)
    let trust := trust + (if p.dkim = Verdict.fail then -40 else 0)
    let trust := trust + (if p.dmarc = Verdict.pass then 20 else 0)
    let trust := trust + (if p.dmarc = Verdict.fail then -20 else 0)
    max 0 (min 100 trust)

/- ===================== Trusted-sender ledger ===================== -/

/-- TrustRecord kept per domain in chrome.storage.local trustedSenders. -/
structure TrustRecord where
  count : ℕ
  last : ℕ
deriving DecidableEq

/-- The trustedSenders map backing the ledger. -/
def Ledger : Type := String → Option TrustRecord

/-- The empty ledger (fresh storage). -/
def emptyLedger : Ledger := fun _ => none

/-- TRUST_BOOST_FROM_HISTORY constant of background.js. -/
def TRUST_BOOST_FROM_HISTORY : ℕ := 25

/-- Count held by a stored record, 0 when absent (the `(map[domain].count ||
0)` read after the creating-if-absent step). -/
def countOf (o : Option TrustRecord) : ℕ :=
  match o with
  | none => 0
  | some r => r.count

/-- background.js addTrustedSenderDomain (lines 193-205): a falsy (absent or
empty) domain is a silent no-op; otherwise upsert the record, incrementing its
count by one and refreshing its timestamp. -/
def addTrustedSenderDomain (m : Ledger) (domain : Option String) (now : ℕ) : Ledger :=
  match domain with
  | none => m
  | some d =>
    if d = "" then m
    else fun d2 => if d2 = d then some ⟨countOf (m d) + 1, now⟩ else m d2

/-- background.js getTrustedSenderBoost (lines 207-219): 0 for a falsy or
unrecorded domain, else min(TRUST_BOOST_FROM_HISTORY, count*5). -/
def getTrustedSenderBoost (m : Ledger) (domain : Option String) : ℕ :=
  match domain with
  | none => 0
  | some d =>
    if d = "" then 0
    else
      match m d with
      | none => 0
      | some r => min TRUST_BOOST_FROM_HISTORY (r.count * 5)

/-- n successive recordSafe (addTrustedSenderDomain) calls for one domain, the
i-th call happening at time times i. -/
def recordSafeN (m : Ledger) (domain : Option String) (times : ℕ → ℕ) : ℕ → Ledger
  | 0 => m
  | n + 1 => addTrustedSenderDomain (recordSafeN m domain times n) domain (times n)

/- ===================== get_headers trust pipeline ===================== -/

/-- The get_headers trust pipeline of background.js (lines 276-303) as a
function of the parsed verdicts, the envelope and display domains extracted
from the headers, the Google-relay detection flag, and the ledger: verdict
trust, then mismatch penalty max(0, t-30), relay bonus min(100, t+20), and
history boost min(100, t+boost) applied only when the boost is truthy. -/
def getHeadersTrust (parsed : Option AuthVerdict) (envDomain displayDomain : Option String)
    (googleRelay : Bool) (ledger : Ledger) : ℤ :=
  let trust0 := headerTrustFromParsed parsed
  let envelopeMismatch : Bool := envDomain.isSome && displayDomain.isSome &&
    (envDomain != displayDomain)
  let trust1 := if envelopeMismatch then max 0 (trust0 - 30) else trust0
  let trust2 := if googleRelay then min 100 (trust1 + 20) else trust1
  let domain : Option String := displayDomain.orElse (fun _ => envDomain)
  let historyBoost := getTrustedSenderBoost ledger domain
  if historyBoost ≠ 0 then min 100 (trust2 + (historyBoost : ℤ)) else trust2

/- ===================== Timed cache ===================== -/

/-- CACHE_TTL_MS default of background.js (10 minutes in milliseconds). -/
def CACHE_TTL_MS : ℕ := 600000

/-- Cache entry `{ ts, data, ttl }` as written by cacheSet. -/
structure CacheEntry (α : Type) where
  ts : ℕ
  data : α
  ttl : ℕ

/-- A cache map (HEADER_CACHE / QUERY_CACHE are Maps from keys to entries). -/
def CacheMap (α : Type) : Type := String → Option (CacheEntry α)

/-- background.js cacheSet (lines 149-151): store `{ts: now, data, ttl}`,
overwriting any prior entry for the key. -/
def cacheSet {α : Type} (m : CacheMap α) (k : String) (data : α) (ttl now : ℕ) : CacheMap α :=
  fun k2 => if k2 = k then some ⟨now, data, ttl⟩ else m k2

/-- background.js cacheGet (lines 153-161): an absent key gives null; an entry
whose age exceeds `v.ttl || CACHE_TTL_MS` (a falsy ttl of 0 falls back to the
default) is deleted and gives null; otherwise the stored data is returned.
The result pairs the looked-up value with the cache map after the lookup. -/
def cacheGet {α : Type} (m : CacheMap α) (k : String) (now : ℕ) :
    Option α × CacheMap α :=
  match m k with
  | none => (none, m)
  | some v =>
    if now - v.ts > (if v.ttl = 0 then CACHE_TTL_MS else v.ttl) then
      (none, fun k2 => if k2 = k then none else m k2)
    else (some v.data, m)

/- ===================== Gate decision (content.js) ===================== -/

/-- Quick-assessment tier labels used by the analysis popup. -/
inductive Tier where
  | high
  | medium
  | low
deriving DecidableEq

/-- Gate verdict of the spec's GateDecision policy. -/
inductive Gate where
  | allow
  | warn
  | block
deriving DecidableEq

/-- content.js buildEnhancedAnalysisHTML quick-assessment tier (lines
287-291): risk-high above 70, risk-medium above 40, risk-low otherwise; no
pattern flag is consulted. -/
def quickRiskTier (quickRisk : ℤ) : Tier :=
  if quickRisk > 70 then Tier.high else if quickRisk > 40 then Tier.medium else Tier.low

/-- content.js protectSuspiciousLinks click-handler condition (line 773): the
click is intercepted (popup shown, default prevented) iff the URL matched a
suspicious pattern or the combined risk exceeds 60; otherwise the link
proceeds untouched. -/
def clickIntercepts (urlSuspicious : Bool) (combinedRisk : ℤ) : Bool :=
  urlSuspicious || decide (combinedRisk > 60)

/-- content.js line 771: combined risk is the max of URL risk and email risk
when the email risk is positive, else the URL risk alone. -/
def combinedRiskOf (urlRisk emailRiskScore : ℤ) : ℤ :=
  if emailRiskScore > 0 then max urlRisk emailRiskScore else urlRisk

/-- Modelled from the spec: claim C5's single gate function over score and
pattern flag: block above 70, warn above 40, allow at or below 40, and a true
pattern flag forces at least warn. -/
def specGateDecision (s : ℤ) (p : Bool) : Gate :=
  if s > 70 then Gate.block
  else if s > 40 then Gate.warn
  else if p then Gate.warn
  else Gate.allow

/- ===================== URL and pattern scanning (content.js) ===================== -/

/-- JS \w word character: ASCII letter, digit or underscore. -/
def isWordChar (c : Char) : Bool := c.isAlphanum || c == '_'

/-- A character that ends a URL match of /https?:\/\/[^\s)]+/: whitespace or
a closing parenthesis. -/
def isUrlStop (c : Char) : Bool := c.isWhitespace || c == ')'

/-- Length of the case-insensitive https?:// scheme at the head of s, if
present (the optional s is preferred, as regex greediness does). -/
def schemeLen (s : List Char) : Option ℕ :=
  if isPrefixAt ("https://".toList) (lowerL (s.take 8)) then some 8
  else if isPrefixAt ("http://".toList) (lowerL (s.take 7)) then some 7
  else none

/-- One match of /https?:\/\/[^\s)]+/i at the head of s: the matched URL in
its original characters, and the remainder after the match. -/
def matchUrlAt (s : List Char) : Option (List Char × List Char) :=
  match schemeLen s with
  | none => none
  | some n =>
    let rest := s.drop n
    let run := rest.takeWhile (fun c => !(isUrlStop c))
    if run.isEmpty then none
    else some (s.take n ++ run, rest.drop run.length)

/-- Global scan for /https?:\/\/[^\s)]+/gi: leftmost matches, resuming after
each match end; the fuel (the string length) bounds the recursion, and every
step consumes at least one character. -/
def scanUrls : ℕ → List Char → List (List Char)
  | 0, _ => []
  | _ + 1, [] => []
  | fuel + 1, c :: rest =>
    match matchUrlAt (c :: rest) with
    | some (url, rest2) => url :: scanUrls fuel rest2
    | none => scanUrls fuel rest

/-- `snippetText.match(/https?:\/\/[^\s)]+/gi) || []` of content.js line 32. -/
def extractUrls (s : List Char) : List (List Char) := scanUrls s.length s

/-- Consume a digit run: \d{1,3} immediately followed by a non-digit is,
under complete backtracking, exactly a maximal run of length 1 to 3. -/
def parseRun13 (s : List Char) : Option (List Char) :=
  let run := s.takeWhile Char.isDigit
  if run.length = 0 ∨ run.length > 3 then none else some (s.drop run.length)

/-- Expect one specific character. -/
def expectChar (c : Char) : List Char → Option (List Char)
  | x :: rest => if x == c then some rest else none
  | [] => none

/-- An octet (\d{1,3}) followed by a literal dot. -/
def parseOctetDot (s : List Char) : Option (List Char) :=
  match parseRun13 s with
  | none => none
  | some rest => expectChar '.' rest

/-- Match of https?:\/\/\d{1,3}(\.\d{1,3}){3}[:\/] at the head of s. -/
def matchIpUrlAt (s : List Char) : Bool :=
  match schemeLen s with
  | none => false
  | some n =>
    match parseOctetDot (s.drop n) with
    | none => false
    | some s1 =>
      match parseOctetDot s1 with
      | none => false
      | some s2 =>
        match parseOctetDot s2 with
        | none => false
        | some s3 =>
          match parseRun13 s3 with
          | none => false
          | some s4 =>
            match s4 with
            | c :: _ => c == ':' || c == '/'
            | [] => false

/-- Search with the leading \b boundary: carry whether the previous character
was a word character (the scheme starts with the word character h). -/
def ipUrlSearch : Bool → List Char → Bool
  | _, [] => false
  | prevW, c :: rest => (!prevW && matchIpUrlAt (c :: rest)) || ipUrlSearch (isWordChar c) rest

/-- content.js line 40: /\bhttps?:\/\/\d{1,3}(\.\d{1,3}){3}[:\/]/ test. -/
def ipUrlTest (s : List Char) : Bool := ipUrlSearch false s

/-- Match of \d{1,3}(\.\d{1,3}){3} at the head: three octet-dot groups and
then at least one digit (the last \d{1,3} has no follow constraint). -/
def matchQuadAt (s : List Char) : Bool :=
  match parseOctetDot s with
  | none => false
  | some s1 =>
    match parseOctetDot s1 with
    | none => false
    | some s2 =>
      match parseOctetDot s2 with
      | none => false
      | some s3 =>
        match s3 with
        | c :: _ => c.isDigit
        | [] => false

/-- content.js line 258: /\d{1,3}\.\d{1,3}\.\d{1,3}\.\d{1,3}/ test, a dotted
quad anywhere in the string with no boundary requirement. -/
def quadTest : List Char → Bool
  | [] => false
  | c :: rest => matchQuadAt (c :: rest) || quadTest rest

/-- Character class [A-Z0-9._%+-] (case-insensitive) of the email regex. -/
def isEmailLocalChar (c : Char) : Bool :=
  c.isAlphanum || c == '.' || c == '_' || c == '%' || c == '+' || c == '-'

/-- Character class [A-Z0-9.-] of the email regex domain part. -/
def isEmailDomChar (c : Char) : Bool := c.isAlphanum || c == '.' || c == '-'

/-- At least two ASCII letters at the head (for the \.[A-Z]{2,} tail). -/
def twoLetters : List Char → Bool
  | a :: b :: _ => a.isAlpha && b.isAlpha
  | _ => false

/-- After at least one domain character: either the current character is the
literal dot with two letters following, or it extends the domain run (a dot is
both, and complete backtracking tries both). -/
def domTailAfterOne : List Char → Bool
  | [] => false
  | c :: rest => (c == '.' && twoLetters rest) || (isEmailDomChar c && domTailAfterOne rest)

/-- The [A-Z0-9.-]+\.[A-Z]{2,} part after the @ sign. -/
def domTail : List Char → Bool
  | [] => false
  | c :: rest => isEmailDomChar c && domTailAfterOne rest

/-- Existence of a match of /[A-Z0-9._%+-]+@[A-Z0-9.-]+\.[A-Z]{2,}/i: an @
preceded by at least one local-part character and followed by a domain run, a
dot, and at least two letters. -/
def emailSearchAux : Option Char → List Char → Bool
  | _, [] => false
  | prev, c :: rest =>
    (c == '@' &&
      (match prev with
       | some p => isEmailLocalChar p
       | none => false) && domTail rest) || emailSearchAux (some c) rest

/-- content.js line 51: email-like token test on the sender text. -/
def emailLikeTest (s : List Char) : Bool := emailSearchAux none s

/-- A whole lower-cased word w at the head of s with a word boundary after. -/
def matchWordAt (w : List Char) (s : List Char) : Bool :=
  isPrefixAt w (lowerL (s.take w.length)) &&
    (match (s.drop w.length).head? with
     | none => true
     | some c => !isWordChar c)

/-- Search for /\battachment\b|\bpaperclip\b/i, carrying the wordness of the
previous character for the leading boundary. -/
def attachSearchAux : Bool → List Char → Bool
  | _, [] => false
  | prevW, c :: rest =>
    (!prevW && (matchWordAt ("attachment".toList) (c :: rest) ||
                matchWordAt ("paperclip".toList) (c :: rest))) ||
      attachSearchAux (isWordChar c) rest

/-- content.js line 61 attachment-keyword test on the row text. -/
def attachTest (s : List Char) : Bool := attachSearchAux false s

/-- JS String.trim. -/
def trimL (s : List Char) : List Char :=
  ((s.dropWhile Char.isWhitespace).reverse.dropWhile Char.isWhitespace).reverse

/- ===================== Lexical risk scorer (content.js computeLocalScore) ===================== -/

/-- content.js veryStrong phrases (+30 each). -/
def veryStrong : List (List Char) :=
  ["account suspended", "wire transfer", "payment required", "verify account",
   "verify your account", "reset your password", "action required",
   "confirm your account", "your account has been suspended", "unauthorized"].map String.toList

/-- content.js strong words (+12 each). -/
def strongWords : List (List Char) :=
  ["urgent", "verify", "verification", "reset", "password", "account",
   "suspended", "security alert", "click", "confirm", "immediately",
   "limited time", "invoice", "sign-in"].map String.toList

/-- content.js brand names of line 45. -/
def brandsLex : List (List Char) :=
  ["google", "paypal", "amazon", "microsoft", "apple", "bank", "facebook",
   "linkedin"].map String.toList

/-- content.js suspicious TLD substrings of line 36. -/
def suspiciousTlds : List (List Char) :=
  [".xyz", ".top", ".club", ".ru", ".tk", ".cf", ".ga", ".gq", ".ml"].map String.toList

/-- Points for each keyword of a tier found in the combined text. -/
def tallyHits (pts : ℕ) (keys : List (List Char)) (hay : List Char) : ℕ :=
  keys.foldl (fun acc k => acc + (if hasSub k hay then pts else 0)) 0

/-- Sum of +18 per suspicious TLD substring found in the lowercased URL. -/
def urlTldPoints (low : List Char) : ℕ :=
  suspiciousTlds.foldl (fun acc t => acc + (if hasSub t low then 18 else 0)) 0

/-- Per-URL structural penalty of content.js lines 37-43: +18 per suspicious
TLD substring, +20 for a raw-IP URL, +20 for a punycode marker, +8 for length
over 90. -/
def urlPenalty (u : List Char) : ℕ :=
  let low := lowerL u
  urlTldPoints low + (if ipUrlTest low then 20 else 0) +
    (if hasSub ("xn--".toList) low then 20 else 0) +
    (if low.length > 90 then 8 else 0)

/-- Brand-in-text-but-not-in-sender penalty of lines 45-48 (+22 per brand). -/
def brandPts (combined fromLower : List Char) : ℕ :=
  brandsLex.foldl
    (fun acc b => acc + (if hasSub b combined && !(hasSub b fromLower) then 22 else 0)) 0

/-- The four text fields extracted from a Gmail row. -/
structure RowInfo where
  fromText : List Char
  subjectText : List Char
  snippetText : List Char
  rowText : List Char

/-- The all-empty row (every extracted field empty). -/
def emptyRow : RowInfo := ⟨[], [], [], []⟩

/-- content.js computeLocalScore (lines 15-65), with the Math.random()*4
jitter passed explicitly (the source draws it from [0,4)).  Every `score +=`
statement of the source appears as one addend in source order; the result is
min(100, round(score + jitter)) — the source has no lower clamp. -/
def computeLocalScore (info : RowInfo) (jitter : ℚ) : ℤ :=
  let subj := trimL info.subjectText
  let combined := lowerL (subj ++ (' ' :: info.snippetText) ++ (' ' :: info.rowText) ++
    (' ' :: info.fromText))
  let score1 := tallyHits 30 veryStrong combined
  let score2 := score1 + tallyHits 12 strongWords combined
  let urls := extractUrls info.snippetText
  let score3 := score2 + (if urls.length ≥ 1 then 25 else 0) + (if urls.length ≥ 2 then 10 else 0)
  let score4 := score3 + (urls.map urlPenalty).sum
  let score5 := score4 + brandPts combined (lowerL info.fromText)
  let score6 := score5 +
    (if info.fromText ≠ [] then
      (if emailLikeTest info.fromText then 0 else 6) +
        (if (info.fromText.filter (fun c => !c.isWhitespace)).length ≤ 2 then 12 else 0)
     else 0)
  let exclam := (subj.filter (fun c => c == '!')).length
  let score7 := score6 + (if exclam > 0 then min 12 (exclam * 4) else 0)
  let upperCount := (subj.filter (fun c => 'A' ≤ c && c ≤ 'Z')).length
  let score8 := score7 + (if (upperCount : ℚ) / ((max 1 subj.length : ℕ) : ℚ) > 0.4 then 18 else 0)
  let score9 := score8 + (if attachTest info.rowText then 10 else 0)
  min 100 (round ((score9 : ℚ) + jitter))

/-- The total of the individually listed contributions of claim C8, read off
the code blocks of computeLocalScore (the two sender penalties guarded by a
non-empty sender text, as in the source). -/
def lexBase (info : RowInfo) : ℕ :=
  let subj := trimL info.subjectText
  let combined := lowerL (subj ++ (' ' :: info.snippetText) ++ (' ' :: info.rowText) ++
    (' ' :: info.fromText))
  let urls := extractUrls info.snippetText
  let exclam := (subj.filter (fun c => c == '!')).length
  let upperCount := (subj.filter (fun c => 'A' ≤ c && c ≤ 'Z')).length
  tallyHits 30 veryStrong combined + tallyHits 12 strongWords combined +
    (if urls.length ≥ 1 then 25 else 0) + (if urls.length ≥ 2 then 10 else 0) +
    (urls.map urlPenalty).sum + brandPts combined (lowerL info.fromText) +
    (if info.fromText ≠ [] then
      (if emailLikeTest info.fromText then 0 else 6) +
        (if (info.fromText.filter (fun c => !c.isWhitespace)).length ≤ 2 then 12 else 0)
     else 0) +
    (if exclam > 0 then min 12 (exclam * 4) else 0) +
    (if (upperCount : ℚ) / ((max 1 subj.length : ℕ) : ℚ) > 0.4 then 18 else 0) +
    (if attachTest info.rowText then 10 else 0)

/-- Modelled from the spec: claim C8's contribution sum, identical to the code
except that the two sender penalties (+6 for no email-like token, +12 for
length at most 2 ignoring whitespace) apply to every sender text, the empty
one included, and the total is clamped to [0,100] on both sides. -/
def claimLexBase (info : RowInfo) : ℕ :=
  let subj := trimL info.subjectText
  let combined := lowerL (subj ++ (' ' :: info.snippetText) ++ (' ' :: info.rowText) ++
    (' ' :: info.fromText))
  let urls := extractUrls info.snippetText
  let exclam := (subj.filter (fun c => c == '!')).length
  let upperCount := (subj.filter (fun c => 'A' ≤ c && c ≤ 'Z')).length
  tallyHits 30 veryStrong combined + tallyHits 12 strongWords combined +
    (if urls.length ≥ 1 then 25 else 0) + (if urls.length ≥ 2 then 10 else 0) +
    (urls.map urlPenalty).sum + brandPts combined (lowerL info.fromText) +
    (if emailLikeTest info.fromText then 0 else 6) +
    (if (info.fromText.filter (fun c => !c.isWhitespace)).length ≤ 2 then 12 else 0) +
    (if exclam > 0 then min 12 (exclam * 4) else 0) +
    (if (upperCount : ℚ) / ((max 1 subj.length : ℕ) : ℚ) > 0.4 then 18 else 0) +
    (if attachTest info.rowText then 10 else 0)

/-- Modelled from the spec: claim C8's score, the claimed contribution sum
plus the jitter, rounded and clamped to [0,100]. -/
def claimLexicalScore (info : RowInfo) (jitter : ℚ) : ℤ :=
  max 0 (min 100 (round ((claimLexBase info : ℚ) + jitter)))

/- ===================== Link risk estimator (content.js estimateLinkRisk) ===================== -/

/-- content.js estimateLinkRisk brand list of line 266. -/
def linkBrands : List (List Char) :=
  ["google", "microsoft", "paypal", "facebook"].map String.toList

/-- Brand-without-canonical-domain penalty of lines 266-271: +60 per brand
token present without a `.brand.` occurrence, stacking across brands. -/
def linkBrandPts (url : List Char) : ℕ :=
  linkBrands.foldl
    (fun acc b => acc + (if hasSub b url && !(hasSub ('.' :: (b ++ ['.'])) url) then 60 else 0)) 0

/-- content.js estimateLinkRisk (lines 253-274): additive structural checks on
the raw (case-sensitive) URL string, capped at 100. -/
def estimateLinkRisk (url : List Char) : ℕ :=
  let r1 := if hasSub ("ngrok-free.app".toList) url || hasSub ("ngrok.io".toList) url then 70 else 0
  let r2 := r1 + (if quadTest url then 80 else 0)
  let r3 := r2 + (if hasSub ("verify".toList) url && hasSub ("google".toList) url then 90 else 0)
  let r4 := r3 + (if hasSub ("login".toList) url || hasSub ("reset".toList) url ||
    hasSub ("forgot".toList) url then 50 else 0)
  let r5 := r4 + (if hasSub ("http://".toList) url then 30 else 0)
  let r6 := r5 + linkBrandPts url
  min 100 r6

/-- Modelled from the spec: claim C9's estimator, identical to the code except
that the +90 check fires for "verify" simultaneously with any well-known brand
token, not only "google". -/
def claimLinkRisk (url : List Char) : ℕ :=
  let r1 := if hasSub ("ngrok-free.app".toList) url || hasSub ("ngrok.io".toList) url then 70 else 0
  let r2 := r1 + (if quadTest url then 80 else 0)
  let r3 := r2 +
    (if hasSub ("verify".toList) url && linkBrands.any (fun b => hasSub b url) then 90 else 0)
  let r4 := r3 + (if hasSub ("login".toList) url || hasSub ("reset".toList) url ||
    hasSub ("forgot".toList) url then 50 else 0)
  let r5 := r4 + (if hasSub ("http://".toList) url then 30 else 0)
  let r6 := r5 + linkBrandPts url
  min 100 r6

/- ===================== Theorems: C1, C3, C4 ===================== -/

theorem round_mono_q {a b : ℚ} (h : a ≤ b) : round a ≤ round b := by
  rw [round_eq, round_eq]
  exact Int.floor_mono (by linarith)

theorem ensembleFinal_num (l m : ℚ) (t : ℤ) :
    ensembleFinal (JsNum.num l) (JsNum.num m) t = JsNum.num ((ensembleFinalQ l m t : ℤ) : ℚ) := by
  simp only [ensembleFinal, ensembleFinalQ, JsNum.mulC, JsNum.add, JsNum.roundJ, JsNum.min100,
    JsNum.max0, MAX_SCORE, JsNum.num.injEq]
  push_cast
  rfl

/-- Claim C1 counterexample: at header trust 0 the code's `headerTrust || 50`
falls back to the neutral 50, so with local 50 and ML 50 the code produces 48
while the claimed formula round(0.25*50 + 0.5*50 + 0.2*(100-0)) gives 58. -/
theorem ensemble_zero_trust_cex :
    ensembleFinalQ 50 50 0 = 48 ∧ claimEnsembleFinal 50 50 0 = 58 := by
  constructor <;>
  · simp only [ensembleFinalQ, claimEnsembleFinal, MAX_SCORE]
    norm_num [round_eq, max_def, min_def]

/-- Claim C1 (amended): for every nonzero header trust the final score equals
round(0.25*local + 0.50*ml + 0.20*(100 - headerTrust)) clamped to [0,100]; a
trust of exactly 0 is replaced by the neutral 50 before conversion.  The
handler realises this value: a numeric ML score is used as is, and a
non-numeric ML value is substituted by the local score. -/
theorem ensemble_formula (l m : ℚ) (t : ℤ) (ht : t ≠ 0) :
    ensembleFinalQ l m t = claimEnsembleFinal l m t ∧
    (get_scores l (JsVal.vnum (JsNum.num m)) (some t)).final_score =
      JsNum.num ((ensembleFinalQ l m t : ℤ) : ℚ) ∧
    (get_scores l JsVal.vother (some t)).final_score =
      JsNum.num ((ensembleFinalQ l l t : ℤ) : ℚ) ∧
    0 ≤ ensembleFinalQ l m t ∧ ensembleFinalQ l m t ≤ 100 := by
  refine ⟨?_, ?_, ?_, ?_, ?_⟩
  · simp only [ensembleFinalQ, claimEnsembleFinal, MAX_SCORE, if_neg ht]
  · simpa only [get_scores, Option.getD] using ensembleFinal_num l m t
  · simpa only [get_scores, Option.getD] using ensembleFinal_num l l t
  · simp only [ensembleFinalQ]
    omega
  · simp only [ensembleFinalQ, MAX_SCORE]
    omega

theorem ensemble_formula_witness : ensembleFinalQ 25 80 60 = claimEnsembleFinal 25 80 60 :=
  (ensemble_formula 25 80 60 (by decide)).1

/-- Claim C3 counterexample: with local 0 and ML 0 fixed, raising header trust
from 0 to 1 raises the final score (10 to 20), because trust 0 is silently
replaced by the neutral 50 while trust 1 yields suspicion 99; so the final
score is not monotonically non-increasing in headerTrust over all of [0,100]. -/
theorem ensemble_trust_mono_cex : ensembleFinalQ 0 0 0 < ensembleFinalQ 0 0 1 := by
  have h1 : ensembleFinalQ 0 0 0 = 10 := by
    simp only [ensembleFinalQ, MAX_SCORE]
    norm_num [round_eq, max_def, min_def]
  have h2 : ensembleFinalQ 0 0 1 = 20 := by
    simp only [ensembleFinalQ, MAX_SCORE]
    norm_num [round_eq, max_def, min_def]
  omega

/-- Claim C3 (amended): the final ensemble score is monotonically
non-decreasing in the local score and in the ML score, and monotonically
non-increasing in headerTrust on [1,100] (monotonicity fails only across the
headerTrust = 0 boundary, where the JS falsy default replaces 0 by 50). -/
theorem ensemble_monotone (l1 l2 m1 m2 l m : ℚ) (t t1 t2 : ℤ) :
    (l1 ≤ l2 → ensembleFinalQ l1 m t ≤ ensembleFinalQ l2 m t) ∧
    (m1 ≤ m2 → ensembleFinalQ l m1 t ≤ ensembleFinalQ l m2 t) ∧
    (1 ≤ t1 → t1 ≤ t2 → ensembleFinalQ l m t2 ≤ ensembleFinalQ l m t1) := by
  refine ⟨?_, ?_, ?_⟩
  · intro h
    simp only [ensembleFinalQ, MAX_SCORE]
    have : round (l1 * 0.25 + m * 0.5 + ((100 - (if t = 0 then 50 else t) : ℤ) : ℚ) * 0.2) ≤
        round (l2 * 0.25 + m * 0.5 + ((100 - (if t = 0 then 50 else t) : ℤ) : ℚ) * 0.2) :=
      round_mono_q (by nlinarith)
    omega
  · intro h
    simp only [ensembleFinalQ, MAX_SCORE]
    have : round (l * 0.25 + m1 * 0.5 + ((100 - (if t = 0 then 50 else t) : ℤ) : ℚ) * 0.2) ≤
        round (l * 0.25 + m2 * 0.5 + ((100 - (if t = 0 then 50 else t) : ℤ) : ℚ) * 0.2) :=
      round_mono_q (by nlinarith)
    omega
  · intro h1 h12
    simp only [ensembleFinalQ, MAX_SCORE, if_neg (by omega : ¬ t1 = 0), if_neg (by omega : ¬ t2 = 0)]
    have hc : ((100 - t2 : ℤ) : ℚ) ≤ ((100 - t1 : ℤ) : ℚ) := by
      exact_mod_cast by omega
    have : round (l * 0.25 + m * 0.5 + ((100 - t2 : ℤ) : ℚ) * 0.2) ≤
        round (l * 0.25 + m * 0.5 + ((100 - t1 : ℤ) : ℚ) * 0.2) :=
      round_mono_q (by nlinarith)
    omega

theorem ensemble_monotone_witness : ensembleFinalQ 0 0 2 ≤ ensembleFinalQ 0 0 1 :=
  (ensemble_monotone 0 0 0 0 0 0 0 1 2).2.2 (by decide) (by decide)

/-- Claim C4: failing input for totality.  When the ML backend answers with a
score that is a non-numeric string, parseFloat yields NaN, whose typeof is
still "number", so it is not substituted by the local score; the NaN then
propagates through the weighted sum, Math.round, Math.min and Math.max, and
the handler replies ok with final_score NaN instead of a score in [0,100]. -/
theorem get_scores_nan_string :
    (get_scores 50 (JsVal.vstr ("garbage".toList)) none).ok = true ∧
    (get_scores 50 (JsVal.vstr ("garbage".toList)) none).final_score = JsNum.nan ∧
    parseFloatJs ("garbage".toList) = JsNum.nan := by
  refine ⟨rfl, ?_, ?_⟩ <;> decide

/- ===================== Theorems: C2, C10, C7 ===================== -/

theorem clamp_range (t : ℤ) : 0 ≤ max 0 (min 100 t) ∧ max 0 (min 100 t) ≤ 100 := by
  omega

theorem headerTrustFromParsed_range (parsed : Option AuthVerdict) :
    0 ≤ headerTrustFromParsed parsed ∧ headerTrustFromParsed parsed ≤ 100 := by
  match parsed with
  | none => exact ⟨by norm_num [headerTrustFromParsed], by norm_num [headerTrustFromParsed]⟩
  | some p =>
    simp only [headerTrustFromParsed]
    exact clamp_range _

/-- Claim C2: for every combination of parsed verdicts, extracted envelope and
display domains, relay flag and ledger state, the get_headers trust value lies
in [0,100]. -/
theorem headerTrust_range (parsed : Option AuthVerdict) (envDomain displayDomain : Option String)
    (googleRelay : Bool) (ledger : Ledger) :
    0 ≤ getHeadersTrust parsed envDomain displayDomain googleRelay ledger ∧
    getHeadersTrust parsed envDomain displayDomain googleRelay ledger ≤ 100 := by
  obtain ⟨h0, h1⟩ := headerTrustFromParsed_range parsed
  simp only [getHeadersTrust]
  split_ifs <;> omega

/-- Claim C10: in parseAuthResults the pass token beats the fail token for
each protocol (an input containing both, in any letter case, resolves to
pass), and a protocol with neither token present resolves to unknown. -/
theorem parseAuth_pass_precedence (s : List Char) :
    (hasSub ("spf=pass".toList) (lowerL s) = true →
      hasSub ("spf=fail".toList) (lowerL s) = true →
      (parseAuthResults (some s)).spf = Verdict.pass) ∧
    (hasSub ("spf=pass".toList) (lowerL s) = false →
      hasSub ("spf=fail".toList) (lowerL s) = false →
      (parseAuthResults (some s)).spf = Verdict.unknown) ∧
    (hasSub ("dkim=pass".toList) (lowerL s) = true →
      hasSub ("dkim=fail".toList) (lowerL s) = true →
      (parseAuthResults (some s)).dkim = Verdict.pass) ∧
    (hasSub ("dkim=pass".toList) (lowerL s) = false →
      hasSub ("dkim=fail".toList) (lowerL s) = false →
      (parseAuthResults (some s)).dkim = Verdict.unknown) ∧
    (hasSub ("dmarc=pass".toList) (lowerL s) = true →
      hasSub ("dmarc=fail".toList) (lowerL s) = true →
      (parseAuthResults (some s)).dmarc = Verdict.pass) ∧
    (hasSub ("dmarc=pass".toList) (lowerL s) = false →
      hasSub ("dmarc=fail".toList) (lowerL s) = false →
      (parseAuthResults (some s)).dmarc = Verdict.unknown) := by
  refine ⟨?_, ?_, ?_, ?_, ?_, ?_⟩ <;> intro h1 h2 <;>
    simp only [parseAuthResults, h1, h2, reduceIte] <;> simp

theorem parseAuth_pass_precedence_witness :
    (parseAuthResults (some ("Received-SPF: x; SPF=Pass; spf=fail".toList))).spf = Verdict.pass :=
  (parseAuth_pass_precedence _).1 (by decide) (by decide)

theorem addTrusted_self (m : Ledger) (d : String) (hd : d ≠ "") (now : ℕ) :
    addTrustedSenderDomain m (some d) now d = some ⟨countOf (m d) + 1, now⟩ := by
  simp [addTrustedSenderDomain, hd]

theorem recordSafeN_count (m : Ledger) (d : String) (hd : d ≠ "") (times : ℕ → ℕ) (n : ℕ) :
    countOf ((recordSafeN m (some d) times n) d) = countOf (m d) + n := by
  induction n with
  | zero => rfl
  | succ k ih =>
    rw [recordSafeN, addTrusted_self _ d hd]
    simp only [countOf] at ih ⊢
    omega

theorem recordSafeN_get (m : Ledger) (d : String) (hd : d ≠ "") (times : ℕ → ℕ) (k : ℕ) :
    (recordSafeN m (some d) times (k + 1)) d =
      some ⟨countOf (m d) + k + 1, times k⟩ := by
  have hc := recordSafeN_count m d hd times k
  rw [recordSafeN, addTrusted_self _ d hd, hc]

theorem recordSafeN_empty (m : Ledger) (times : ℕ → ℕ) (n : ℕ) :
    recordSafeN m (some "") times n = m := by
  induction n with
  | zero => rfl
  | succ k ih =>
    rw [recordSafeN, ih]
    simp [addTrustedSenderDomain]

theorem boost_recordSafeN (m : Ledger) (d : String) (hd : d ≠ "") (times : ℕ → ℕ) (n : ℕ) :
    getTrustedSenderBoost (recordSafeN m (some d) times n) (some d) =
      min TRUST_BOOST_FROM_HISTORY ((countOf (m d) + n) * 5) := by
  cases n with
  | zero =>
    simp only [recordSafeN, getTrustedSenderBoost, if_neg hd]
    rcases hmd : m d with _ | r <;> simp [hmd, countOf, TRUST_BOOST_FROM_HISTORY]
  | succ k =>
    simp only [getTrustedSenderBoost, if_neg hd, recordSafeN_get m d hd times k]
    simp only [TRUST_BOOST_FROM_HISTORY]
    omega

/-- Claim C7: the trusted-sender boost never exceeds 25; for a non-empty
domain it is 0 without a record and min(25, count*5) with one; it is
monotonically non-decreasing in the number of prior recordSafe calls for the
domain; and recordSafe applied to an absent or empty domain is a no-op. -/
theorem trustLedger_props (m : Ledger) (d : String) (now n1 n2 : ℕ) (times : ℕ → ℕ) :
    getTrustedSenderBoost m (some d) ≤ 25 ∧
    getTrustedSenderBoost m none = 0 ∧
    addTrustedSenderDomain m none now = m ∧
    addTrustedSenderDomain m (some "") now = m ∧
    (d ≠ "" → m d = none → getTrustedSenderBoost m (some d) = 0) ∧
    (d ≠ "" → ∀ r : TrustRecord, m d = some r →
      getTrustedSenderBoost m (some d) = min 25 (r.count * 5)) ∧
    (n1 ≤ n2 →
      getTrustedSenderBoost (recordSafeN m (some d) times n1) (some d) ≤
        getTrustedSenderBoost (recordSafeN m (some d) times n2) (some d)) := by
  refine ⟨?_, rfl, rfl, ?_, ?_, ?_, ?_⟩
  · simp only [getTrustedSenderBoost, TRUST_BOOST_FROM_HISTORY]
    split_ifs
    · omega
    · rcases hmd : m d with _ | r <;> simp only [hmd] <;> omega
  · simp [addTrustedSenderDomain]
  · intro hd hmd
    simp only [getTrustedSenderBoost, if_neg hd, hmd]
  · intro hd r hmd
    simp only [getTrustedSenderBoost, if_neg hd, hmd, TRUST_BOOST_FROM_HISTORY]
  · intro h12
    by_cases hd : d = ""
    · subst hd
      rw [recordSafeN_empty, recordSafeN_empty]
    · rw [boost_recordSafeN m d hd times n1, boost_recordSafeN m d hd times n2]
      simp only [TRUST_BOOST_FROM_HISTORY]
      omega

theorem trustLedger_props_witness :
    getTrustedSenderBoost (recordSafeN emptyLedger (some "example.com") (fun _ => 0) 1)
        (some "example.com") ≤
      getTrustedSenderBoost (recordSafeN emptyLedger (some "example.com") (fun _ => 0) 3)
        (some "example.com") :=
  (trustLedger_props emptyLedger "example.com" 0 1 3 (fun _ => 0)).2.2.2.2.2.2 (by decide)

/- ===================== Theorems: C6, C5 ===================== -/

/-- Claim C6 counterexample: an entry stored with ttl 0 at time 100 is still
returned by a lookup at time 101, although the elapsed time 1 strictly
exceeds the requested ttl 0 and the claim demands absence — the falsy
`v.ttl || CACHE_TTL_MS` fallback silently replaces a 0 ttl by the 10-minute
default. -/
theorem cache_zero_ttl_cex :
    0 < 101 - 100 ∧
    (cacheGet (cacheSet (fun _ => none : CacheMap ℤ) "k" 7 0 100) "k" 101).1 = some 7 := by
  constructor
  · decide
  · rfl

theorem cacheSet_self {α : Type} (m : CacheMap α) (k : String) (v : α) (ttl now : ℕ) :
    cacheSet m k v ttl now k = some ⟨now, v, ttl⟩ := by
  simp [cacheSet]

/-- Claim C6 (amended): for every positive ttl, after set(k, v, ttl) a lookup
strictly inside the ttl returns v and leaves the cache unchanged, and a lookup
strictly after the ttl returns absent and deletes exactly that entry; neither
set nor a lookup of k touches any other key, so an entry only leaves the cache
through an expired lookup or a later overwriting set.  A ttl of exactly 0 is
instead treated as the 10-minute CACHE_TTL_MS default by the falsy fallback. -/
theorem timedCache_props {α : Type} (m : CacheMap α) (k k2 : String) (v : α)
    (ttl setT now : ℕ) (httl : 0 < ttl) :
    (now - setT < ttl →
      cacheGet (cacheSet m k v ttl setT) k now = (some v, cacheSet m k v ttl setT)) ∧
    (ttl < now - setT →
      cacheGet (cacheSet m k v ttl setT) k now =
        (none, fun k3 => if k3 = k then none else cacheSet m k v ttl setT k3)) ∧
    (k2 ≠ k → cacheSet m k v ttl setT k2 = m k2) ∧
    (k2 ≠ k → (cacheGet m k now).2 k2 = m k2) := by
  refine ⟨?_, ?_, ?_, ?_⟩
  · intro h
    simp only [cacheGet, cacheSet_self]
    rw [if_neg (show ¬ ttl = 0 by omega), if_neg (by omega : ¬ now - setT > ttl)]
  · intro h
    simp only [cacheGet, cacheSet_self]
    rw [if_neg (show ¬ ttl = 0 by omega), if_pos (by omega : now - setT > ttl)]
  · intro hne
    simp [cacheSet, hne]
  · intro hne
    rcases hmk : m k with _ | w
    · simp [cacheGet, hmk]
    · simp only [cacheGet, hmk]
      split_ifs <;> simp [hne]

theorem timedCache_props_witness :
    cacheGet (cacheSet (fun _ => none : CacheMap ℤ) "k" 7 10 0) "k" 5 =
      (some 7, cacheSet (fun _ => none : CacheMap ℤ) "k" 7 10 0) :=
  (timedCache_props (fun _ => none : CacheMap ℤ) "k" "x" 7 10 0 5 (by decide)).1 (by decide)

/-- Claim C5 counterexample: at score 50 with no pattern match the claimed
gate is warn, but the click handler does not intervene at all (its numeric
threshold is 60, not the claimed 40/70 tiers); and the quick-assessment tier
function ignores the pattern flag, labelling score 0 low even where the
claimed gate forces at least warn. -/
theorem gate_cex :
    clickIntercepts false 50 = false ∧ specGateDecision 50 false = Gate.warn ∧
    quickRiskTier 0 = Tier.low ∧ specGateDecision 0 true = Gate.warn := by
  refine ⟨?_, ?_, ?_, ?_⟩ <;> decide

/-- Claim C5 (amended): the quick-assessment tier is high above 70, medium in
(40,70], low at or below 40, and takes no pattern-flag input; click-time
intervention happens iff the pattern flag is true or the combined risk exceeds
60, so a true pattern flag forces intervention regardless of the numeric
score, but the numeric intervention threshold is 60 rather than the tier
bounds. -/
theorem gate_policy (q s : ℤ) (p : Bool) :
    (quickRiskTier q = Tier.high ↔ 70 < q) ∧
    (quickRiskTier q = Tier.medium ↔ 40 < q ∧ q ≤ 70) ∧
    (quickRiskTier q = Tier.low ↔ q ≤ 40) ∧
    clickIntercepts true s = true ∧
    (clickIntercepts p s = true ↔ p = true ∨ 60 < s) := by
  refine ⟨?_, ?_, ?_, rfl, ?_⟩
  · simp only [quickRiskTier]
    split_ifs <;> simp <;> omega
  · simp only [quickRiskTier]
    split_ifs <;> simp <;> omega
  · simp only [quickRiskTier]
    split_ifs <;> simp <;> omega
  · simp only [clickIntercepts, Bool.or_eq_true, decide_eq_true_eq]

/- ===================== Theorems: C8, C9 ===================== -/

theorem computeLocal_decomp (info : RowInfo) (j : ℚ) :
    computeLocalScore info j = min 100 ((lexBase info : ℤ) + round j) := by
  simp only [computeLocalScore, lexBase, round_nat_add]

theorem upperShare_cond (u n : ℕ) :
    ((u : ℚ) / ((max 1 n : ℕ) : ℚ) > 0.4) ↔ 2 * max 1 n < u * 5 := by
  have hd : (0 : ℚ) < ((max 1 n : ℕ) : ℚ) := by
    have h1 : 0 < max 1 n := lt_of_lt_of_le Nat.zero_lt_one (le_max_left 1 n)
    exact_mod_cast h1
  rw [gt_iff_lt, show (0.4 : ℚ) = 2 / 5 by norm_num, div_lt_div_iff₀ (by norm_num) hd]
  constructor
  · intro h
    exact_mod_cast h
  · intro h
    exact_mod_cast h

theorem lexBase_emptyRow : lexBase emptyRow = 0 := by
  simp only [lexBase, upperShare_cond]
  decide

theorem claimLexBase_emptyRow : claimLexBase emptyRow = 18 := by
  simp only [claimLexBase, upperShare_cond]
  decide

/-- Claim C8 counterexample: on the all-empty row with jitter 0 the code
scores 0 (the +6 missing-email and +12 short-sender penalties sit behind a
truthiness guard on the sender text, so an empty sender collects neither),
while the claimed unconditional contribution list yields 18. -/
theorem lexical_empty_sender_cex :
    computeLocalScore emptyRow 0 = 0 ∧ claimLexicalScore emptyRow 0 = 18 := by
  constructor
  · rw [computeLocal_decomp, lexBase_emptyRow]
    norm_num [round_zero]
  · simp only [claimLexicalScore, claimLexBase_emptyRow]
    norm_num [round_eq, max_def, min_def]

/-- Claim C8 (amended): the local score equals the clamped sum of exactly the
listed contributions plus a rounded jitter of at most 4, where the +6
no-email-token and +12 short-sender penalties apply only to a non-empty
sender text; the result lies in [0,100]. -/
theorem lexical_score_formula (info : RowInfo) (j : ℚ) (h0 : 0 ≤ j) (h4 : j < 4) :
    computeLocalScore info j = min 100 ((lexBase info : ℤ) + round j) ∧
    0 ≤ round j ∧ round j ≤ 4 ∧
    0 ≤ computeLocalScore info j ∧ computeLocalScore info j ≤ 100 := by
  have hd := computeLocal_decomp info j
  have hr0 : (0 : ℤ) ≤ round j := by
    have h := round_mono_q h0
    simpa using h
  have hr4 : round j ≤ 4 := by
    have h5 : round j < 5 := by
      rw [round_eq]
      refine Int.floor_lt.mpr ?_
      push_cast
      linarith
    omega
  refine ⟨hd, hr0, hr4, ?_, ?_⟩ <;> rw [hd] <;> omega

theorem lexical_score_formula_witness :
    computeLocalScore emptyRow 1 = min 100 ((lexBase emptyRow : ℤ) + round (1 : ℚ)) :=
  (lexical_score_formula emptyRow 1 (by norm_num) (by norm_num)).1

/-- Claim C9 counterexample: the URL https://paypal-verify.com contains
"verify" and the well-known brand token "paypal", so the claimed estimator
reaches 90 + 60 and caps at 100, but the code's +90 check demands the token
"google" specifically and scores only the +60 brand penalty. -/
theorem linkRisk_brand_cex :
    estimateLinkRisk ("https://paypal-verify.com".toList) = 60 ∧
    claimLinkRisk ("https://paypal-verify.com".toList) = 100 := by
  constructor <;> decide

/-- Claim C9 (amended): the link risk is the capped sum of exactly the listed
independent checks — +70 free-tunnel domain, +80 dotted-quad IP, +90 for
"verify" together with the token "google" specifically, +50 for
login/reset/forgot keywords, +30 for a plaintext http:// occurrence, +60 per
brand token without its `.brand.` interior — computed from the URL string
alone and never exceeding 100. -/
theorem linkRisk_props (url : List Char) :
    estimateLinkRisk url =
      min 100
        ((if hasSub ("ngrok-free.app".toList) url || hasSub ("ngrok.io".toList) url then 70
          else 0) +
         (if quadTest url then 80 else 0) +
         (if hasSub ("verify".toList) url && hasSub ("google".toList) url then 90 else 0) +
         (if hasSub ("login".toList) url || hasSub ("reset".toList) url ||
            hasSub ("forgot".toList) url then 50 else 0) +
         (if hasSub ("http://".toList) url then 30 else 0) +
         linkBrandPts url) ∧
    estimateLinkRisk url ≤ 100 := by
  refine ⟨rfl, ?_⟩
  simp only [estimateLinkRisk]
  omega
